import Mathlib

/-
Shallow embedding of the POSIX (non-_WIN32) branch of
winpr/libwinpr/file/generic.c: handle dispatch, directory enumeration
(FindFirstFileA / FindNextFileA / FindClose), attribute translation
(FindDataFromStat), creator resolution (CreateFileA) and MoveFileExA.

Machine integers are modelled as Nat; truncations to 32/64 bits are made
explicit where the C code relies on them.  Native calls (opendir, readdir,
stat, rename) are modelled as explicit environment functions, so every
definition is executable on concrete inputs.
-/

set_option maxRecDepth 8000

namespace WinprFile

/-! ### Foreign attribute and error constants (Windows values used by the code) -/

def FILE_ATTRIBUTE_READONLY : Nat := 0x1
def FILE_ATTRIBUTE_HIDDEN : Nat := 0x2
def FILE_ATTRIBUTE_DIRECTORY : Nat := 0x10
def FILE_ATTRIBUTE_ARCHIVE : Nat := 0x20

def ERROR_ACCESS_DENIED : Nat := 5
def ERROR_NOT_ENOUGH_MEMORY : Nat := 8
def ERROR_NO_MORE_FILES : Nat := 18
def ERROR_BAD_ARGUMENTS : Nat := 160
def ERROR_ALREADY_EXISTS : Nat := 183

def MAX_PATH : Nat := 260

/-! ### POSIX stat model -/

/-- POSIX mode-bit constants, as used by the source. -/
def S_IFMT : Nat := 0o170000

def S_IFDIR : Nat := 0o040000

def S_IFIFO : Nat := 0o010000

def S_IWUSR : Nat := 0o200

def S_ISDIR (m : Nat) : Bool := m &&& S_IFMT == S_IFDIR

def S_ISFIFO (m : Nat) : Bool := m &&& S_IFMT == S_IFIFO

/-- The fields of struct stat that generic.c reads. -/
structure Stat where
  st_mode : Nat
  st_size : Nat
  st_ctime : Nat
  st_mtime : Nat
  st_atime : Nat
deriving DecidableEq, Repr

/-! ### FindRecord (WIN32_FIND_DATAA) -/

structure FILETIME where
  dwHighDateTime : Nat
  dwLowDateTime : Nat
deriving DecidableEq, Repr

structure WIN32_FIND_DATAA where
  dwFileAttributes : Nat
  ftCreationTime : FILETIME
  ftLastAccessTime : FILETIME
  ftLastWriteTime : FILETIME
  nFileSizeHigh : Nat
  nFileSizeLow : Nat
  dwReserved0 : Nat
  dwReserved1 : Nat
  cFileName : String
  cAlternateFileName : String
deriving DecidableEq, Repr

/-- The all-zero record written by the enumeration entry points. -/
def emptyFindData : WIN32_FIND_DATAA :=
  ⟨0, ⟨0, 0⟩, ⟨0, 0⟩, ⟨0, 0⟩, 0, 0, 0, 0, "", ""⟩

/-- Modelled from the spec: the STAT_TIME_TO_FILETIME macro (winpr header, not
under src/) converts a native epoch timestamp to a fixed-epoch
100-nanosecond-tick count. -/
def STAT_TIME_TO_FILETIME (t : Nat) : Nat :=
  ((t + 11644473600) * 10000000) % 2 ^ 64

/-- Split a 64-bit tick count into its high and low 32-bit halves, as the
assignments to dwHighDateTime / dwLowDateTime do. -/
def splitFiletime (ft : Nat) : FILETIME :=
  ⟨(ft % 2 ^ 64) >>> 32, ft &&& 0xFFFFFFFF⟩

/-- strrchr(s, c): the characters strictly after the last occurrence of c,
or none when c does not occur. -/
def strrchrSuffix (s : List Char) (c : Char) : Option (List Char) :=
  if c ∈ s then some ((s.reverse.takeWhile (fun x => x ≠ c)).reverse) else none

/-- FindDataFromStat (generic.c lines 938-981): translate a stat result into
the FindRecord, updating the given record in place.  The caller has already
stored the entry name in cFileName; this function does not touch it. -/
def FindDataFromStat (path : String) (fileStat : Stat) (fd : WIN32_FIND_DATAA) :
    WIN32_FIND_DATAA :=
  let attrs0 : Nat := 0
  let attrs1 : Nat :=
    if S_ISDIR fileStat.st_mode then attrs0 ||| FILE_ATTRIBUTE_DIRECTORY else attrs0
  let attrs2 : Nat := if attrs1 = 0 then FILE_ATTRIBUTE_ARCHIVE else attrs1
  let attrs3 : Nat :=
    match strrchrSuffix path.data '/' with
    | some (c0 :: c1 :: _) =>
      if c0 = '.' ∧ c1 ≠ '.' then attrs2 ||| FILE_ATTRIBUTE_HIDDEN else attrs2
    | _ => attrs2
  let attrs4 : Nat :=
    if fileStat.st_mode &&& S_IWUSR = 0 then attrs3 ||| FILE_ATTRIBUTE_READONLY else attrs3
  { fd with
    dwFileAttributes := attrs4
    ftCreationTime := splitFiletime (STAT_TIME_TO_FILETIME fileStat.st_ctime)
    ftLastWriteTime := splitFiletime (STAT_TIME_TO_FILETIME fileStat.st_mtime)
    ftLastAccessTime := splitFiletime (STAT_TIME_TO_FILETIME fileStat.st_atime)
    nFileSizeHigh := (fileStat.st_size % 2 ^ 64) >>> 32
    nFileSizeLow := fileStat.st_size &&& 0xFFFFFFFF }

/-- The syntactic hidden-name condition implemented by FindDataFromStat: the
path has a separator, and the base name after the last separator has at least
two characters, starts with a dot, and its second character is not a dot. -/
def hiddenName (path : String) : Bool :=
  match strrchrSuffix path.data '/' with
  | some (c0 :: c1 :: _) => c0 == '.' && c1 != '.'
  | _ => false

/-! ### Wildcard pattern matching -/

/-- Modelled from the spec: FilePatternMatchA (winpr pattern matching, not
under src/): a star matches zero or more characters, a question mark exactly
one, matched against the full entry name, case sensitively.  The fuel
argument keeps the recursion structural; every step shortens the name or the
pattern, so name.length + pattern.length + 1 units never run out. -/
def patMatchFuel : Nat → List Char → List Char → Bool
  | 0, _, _ => false
  | _ + 1, [], [] => true
  | fuel + 1, [], p :: ps => p == '*' && patMatchFuel fuel [] ps
  | _ + 1, _ :: _, [] => false
  | fuel + 1, c :: cs, p :: ps =>
    if p = '*' then patMatchFuel fuel (c :: cs) ps || patMatchFuel fuel cs (p :: ps)
    else if p = '?' then patMatchFuel fuel cs ps
    else c == p && patMatchFuel fuel cs ps

def patMatchChars (name pattern : List Char) : Bool :=
  patMatchFuel (name.length + pattern.length + 1) name pattern

def FilePatternMatchA (name pattern : String) : Bool :=
  patMatchChars name.data pattern.data

/-! ### Native environment: directory streams and stat -/

/-- The native calls used by the directory-search engine, modelled as pure
environment functions: opendir yields a directory stream (its entries in read
order) or fails, stat yields a Stat or an errno. -/
structure FileSystem where
  opendirE : String → Option (List String)
  statE : String → Except Nat Stat

/-- Full path construction in FindNextFileA: the owned path, a separator
unless the path's last character already is one, then the entry name. -/
def mkFullpath (path name : String) : String :=
  if path.data.getLast? = some '/' then path ++ name else path ++ "/" ++ name

/-- Result of one pass of the FindNextFileA readdir loop. -/
structure NextResult where
  found : Bool
  fd : WIN32_FIND_DATAA
  rest : List String
  lastErr : Nat
deriving DecidableEq, Repr

/-- The readdir loop of FindNextFileA (generic.c lines 1124-1172): advance the
stream one entry at a time; a matching entry gets its name copied into the
record, then its metadata resolved; stat failure records the mapped errno as
last error and continues; FIFO entries are skipped; the first surviving entry
is translated via FindDataFromStat and returned with the stream positioned
after it.  Exhaustion reports ERROR_NO_MORE_FILES.  (Allocation of the
fullpath buffer is assumed to succeed.) -/
def findNextFromEntries (mapErr : Nat → Nat) (fs : FileSystem)
    (path pattern : String) :
    List String → WIN32_FIND_DATAA → Nat → NextResult
  | [], fd, _ => ⟨false, fd, [], ERROR_NO_MORE_FILES⟩
  | name :: rest, fd, lastErr =>
    if FilePatternMatchA name pattern then
      let fd1 := { fd with cFileName := name.take MAX_PATH }
      let fullpath := mkFullpath path (name.take MAX_PATH)
      match fs.statE fullpath with
      | .error e => findNextFromEntries mapErr fs path pattern rest fd1 (mapErr e)
      | .ok fileStat =>
        if S_ISFIFO fileStat.st_mode then
          findNextFromEntries mapErr fs path pattern rest fd1 lastErr
        else
          ⟨true, FindDataFromStat fullpath fileStat fd1, rest, lastErr⟩
    else
      findNextFromEntries mapErr fs path pattern rest fd lastErr

/-! ### Search handles, the handle heap, and the machine state -/

/-- WIN32_FILE_SEARCH: the owned state of one directory search.  pDir holds
the not-yet-read entries of the native stream. -/
structure SearchState where
  magic : String
  lpPath : String
  lpPattern : String
  pDir : List String
deriving DecidableEq, Repr

def file_search_magic : String := "file_srch_magic"

/-- An opaque HANDLE value as passed to the enumeration entry points: NULL,
INVALID_HANDLE_VALUE, or an address. -/
inductive HandleV
  | null
  | invalidSentinel
  | id (n : Nat)
deriving DecidableEq, Repr

/-- The allocator state for search handles: at each address, the live
allocation if any.  A freed or never-allocated address holds nothing. -/
def Heap : Type := Nat → Option SearchState

def updateHeap (heap : Heap) (n : Nat) (s : SearchState) : Heap :=
  fun m => if m = n then some s else heap m

def eraseHeap (heap : Heap) (n : Nat) : Heap :=
  fun m => if m = n then none else heap m

/-- is_valid_file_search_handle (generic.c lines 927-937): NULL and
INVALID_HANDLE_VALUE are rejected, and the magic tag of the pointed-to block
must equal file_search_magic.  The heap here models allocation: an address
that was never allocated holds nothing and is rejected.  For an address whose
block has been freed, the C's tag read is undefined (free does not clear the
bytes); that case is modelled separately by FindCloseStale, which keeps the
stale bytes readable. -/
def is_valid_file_search_handle (heap : Heap) : HandleV → Bool
  | .null => false
  | .invalidSentinel => false
  | .id n =>
    match heap n with
    | none => false
    | some s => s.magic == file_search_magic

/-- Resolve a handle value to its address and live search state, when the
validity-tag check passes. -/
def hvalid (heap : Heap) : HandleV → Option (Nat × SearchState)
  | .null => none
  | .invalidSentinel => none
  | .id n =>
    match heap n with
    | none => none
    | some s => if s.magic = file_search_magic then some (n, s) else none

/-- Process state threaded through the enumeration calls: the search-handle
heap and the thread's last-error code. -/
structure MachineState where
  heap : Heap
  lastError : Nat

/-- FindNextFileA (generic.c lines 1110-1173).  A null record is rejected
outright; otherwise the record is zeroed, the handle is checked via the
validity tag, and the readdir loop runs on the handle's stream.  Returns the
BOOL result, the final contents of the caller's record (none when the record
was null and hence untouched), and the new state. -/
def FindNextFileA (mapErr : Nat → Nat) (fs : FileSystem) (st : MachineState)
    (hFindFile : HandleV) (recBuf : Option WIN32_FIND_DATAA) :
    Bool × Option WIN32_FIND_DATAA × MachineState :=
  match recBuf with
  | none => (false, none, st)
  | some _ =>
    match hvalid st.heap hFindFile with
    | none => (false, some emptyFindData, st)
    | some (n, s) =>
      let r := findNextFromEntries mapErr fs s.lpPath s.lpPattern s.pDir
        emptyFindData st.lastError
      (r.found, some r.fd,
        ⟨updateHeap st.heap n { s with pDir := r.rest }, r.lastErr⟩)

/-- file_search_new (generic.c lines 872-925).  Duplicate the directory part
and the pattern, open the directory; if that fails but the whole original
name is itself a directory, open it directly with a match-all pattern.
Returns none when no stream could be opened (the allocations themselves are
assumed to succeed). -/
def file_search_new (fs : FileSystem) (name : String) (namelen : Nat)
    (pattern : String) (patternlen : Nat) : Option SearchState :=
  let lpPath := name.take namelen
  let lpPattern := pattern.take patternlen
  match fs.opendirE lpPath with
  | some entries => some ⟨file_search_magic, lpPath, lpPattern, entries⟩
  | none =>
    match fs.statE name with
    | .ok fileStat =>
      if S_ISDIR fileStat.st_mode then
        match fs.opendirE name with
        | some entries => some ⟨file_search_magic, name, "*", entries⟩
        | none => none
      else none
    | .error _ => none

/-- FindClose (generic.c lines 1202-1225): NULL is rejected, then the
validity-tag check rejects anything that does not carry the magic tag; a
tagged handle has its owned path, pattern and stream released and its
allocation freed.  Erasing the cell models deallocation; the C does not clear
the magic tag before free, so a second close on the same pointer is a
use-after-free — that execution is modelled by FindCloseStale below. -/
def FindClose (st : MachineState) (hFindFile : HandleV) : Bool × MachineState :=
  if hFindFile = HandleV.null then (false, st)
  else
    match hvalid st.heap hFindFile with
    | none => (false, st)
    | some (n, _) => (true, ⟨eraseHeap st.heap n, st.lastError⟩)

/-- FindFirstFileA (generic.c lines 983-1019).  Null name or record fail with
ERROR_BAD_ARGUMENTS before anything is written; otherwise the record is
zeroed, the name is split at the last native separator into directory part
and non-empty pattern, the search state is built, and one FindNextFileA call
produces the first record.  On failure the search state is closed and the
invalid-handle sentinel returned.  freshId is the address the allocator would
hand out for the new search state. -/
def FindFirstFileA (mapErr : Nat → Nat) (fs : FileSystem) (st : MachineState)
    (freshId : Nat) (lpFileName : Option String)
    (recBuf : Option WIN32_FIND_DATAA) :
    HandleV × Option WIN32_FIND_DATAA × MachineState :=
  match lpFileName, recBuf with
  | none, _ =>
    (HandleV.invalidSentinel, recBuf, { st with lastError := ERROR_BAD_ARGUMENTS })
  | _, none =>
    (HandleV.invalidSentinel, none, { st with lastError := ERROR_BAD_ARGUMENTS })
  | some nm, some _ =>
    let buf := emptyFindData
    match strrchrSuffix nm.data '/' with
    | none => (HandleV.invalidSentinel, some buf, st)
    | some pat =>
      if pat.length = 0 then (HandleV.invalidSentinel, some buf, st)
      else
        match file_search_new fs nm (nm.length - pat.length)
          (String.mk pat) pat.length with
        | none =>
          (HandleV.invalidSentinel, some buf,
            { st with lastError := ERROR_NOT_ENOUGH_MEMORY })
        | some s =>
          let st1 : MachineState := ⟨updateHeap st.heap freshId s, st.lastError⟩
          let out := FindNextFileA mapErr fs st1 (HandleV.id freshId) (some buf)
          if out.1 then (HandleV.id freshId, out.2.1, out.2.2)
          else
            let cl := FindClose out.2.2 (HandleV.id freshId)
            (HandleV.invalidSentinel, out.2.1, cl.2)

/-- ConvertFindDataAToW (generic.c lines 1021-1044), with the wide record
identified with the narrow one.  A null source or target is rejected with the
target unwritten.  Otherwise the attribute, timestamp, size and reserved
fields are copied into the target first (lines 1027-1034); only then are the
name and alternate name string-converted in order (lines 1036-1043), and
either conversion may fail — convOk models the external ConvertUtf8NToWChar
(winpr unicode, not under src/) succeeding on a given string — so a failing
call can leave the target partially written. -/
def ConvertFindDataAToW (convOk : String → Bool) (src : Option WIN32_FIND_DATAA)
    (dst : Option WIN32_FIND_DATAA) : Bool × Option WIN32_FIND_DATAA :=
  match src, dst with
  | some a, some w =>
    let w1 := { w with
      dwFileAttributes := a.dwFileAttributes
      ftCreationTime := a.ftCreationTime
      ftLastAccessTime := a.ftLastAccessTime
      ftLastWriteTime := a.ftLastWriteTime
      nFileSizeHigh := a.nFileSizeHigh
      nFileSizeLow := a.nFileSizeLow
      dwReserved0 := a.dwReserved0
      dwReserved1 := a.dwReserved1 }
    if convOk a.cFileName then
      let w2 := { w1 with cFileName := a.cFileName }
      if convOk a.cAlternateFileName then
        (true, some { w2 with cAlternateFileName := a.cAlternateFileName })
      else (false, some w2)
    else (false, some w1)
  | _, _ => (false, dst)

/-- FindFirstFileW (generic.c lines 1046-1086): convert the name, run
FindFirstFileA into a private zeroed record, and only on success convert that
record into the caller's.  When the narrow search itself fails the caller's
record is untouched; when it succeeds but the wide conversion fails, the
handle is closed and the sentinel returned with the caller's record keeping
whatever ConvertFindDataAToW already wrote. -/
def FindFirstFileW (mapErr : Nat → Nat) (fs : FileSystem) (convOk : String → Bool)
    (st : MachineState) (freshId : Nat) (lpFileName : Option String)
    (recBuf : Option WIN32_FIND_DATAA) :
    HandleV × Option WIN32_FIND_DATAA × MachineState :=
  match lpFileName with
  | none => (HandleV.invalidSentinel, recBuf, st)
  | some nm =>
    let fd0 := emptyFindData
    let out := FindFirstFileA mapErr fs st freshId (some nm) (some fd0)
    if out.1 ≠ HandleV.invalidSentinel then
      let conv := ConvertFindDataAToW convOk out.2.1 recBuf
      if conv.1 then (out.1, conv.2, out.2.2)
      else
        let cl := FindClose out.2.2 out.1
        (HandleV.invalidSentinel, conv.2,
          { cl.2 with lastError := ERROR_NOT_ENOUGH_MEMORY })
    else (HandleV.invalidSentinel, recBuf, out.2.2)

/-! ### The double-close execution: freed memory keeps its bytes -/

/-- The memory as the buggy second close sees it: free deallocates a block
(live goes false) but does not clear its bytes, so a later read of the freed
block — undefined behavior in C — typically still returns the old contents.
bytesAt is what a read of the address returns; live tracks whether the
allocation is still current. -/
structure StaleHeapState where
  bytesAt : Nat → Option SearchState
  live : Nat → Bool

/-- FindClose (generic.c lines 1202-1225) as executed when freed memory stays
mapped with unchanged bytes: the validity-tag check reads the block's magic
without any way to know the allocation was freed, so a stale but intact tag
passes the check and the owned resources are freed again. -/
def FindCloseStale (st : StaleHeapState) : HandleV → Bool × StaleHeapState
  | .null => (false, st)
  | .invalidSentinel => (false, st)
  | .id n =>
    match st.bytesAt n with
    | none => (false, st)
    | some s =>
      if s.magic = file_search_magic then
        (true, ⟨st.bytesAt, fun m => if m = n then false else st.live m⟩)
      else (false, st)

/-! ### The generic dispatcher: ReadFile / WriteFile -/

/-- A concrete handle's operation table, reduced to the two entries the
claims exercise.  Each entry is independently absent (unsupported) or a
function of the forwarded arguments: buffer, byte count, and whether the
bytes-transferred and overlapped pointers are non-null. -/
structure WINPR_HANDLE where
  opsReadFile : Option (Option Nat → Nat → Bool → Bool → Bool)
  opsWriteFile : Option (Option Nat → Nat → Bool → Bool → Bool)

/-- A dispatched handle value: the invalid sentinel or a concrete handle
(winpr_Handle_GetInfo succeeds on the latter). -/
inductive FileHandle
  | invalid
  | valid (h : WINPR_HANDLE)

/-- Observable outcome of one dispatcher call: the BOOL result and whether
the operation-table entry was invoked. -/
structure DispatchResult where
  ret : Bool
  invoked : Bool
deriving DecidableEq, Repr

/-- ReadFile (generic.c lines 314-342): the invalid sentinel is rejected;
then, per the MSDN contract quoted in the source, a null bytes-read pointer
together with a null overlapped parameter fails before the operation table is
consulted; otherwise the call forwards to the table entry when present. -/
def ReadFile (hFile : FileHandle) (lpBuffer : Option Nat) (n : Nat)
    (numReadNonNull overlappedNonNull : Bool) : DispatchResult :=
  match hFile with
  | .invalid => ⟨false, false⟩
  | .valid h =>
    if !numReadNonNull && !overlappedNonNull then ⟨false, false⟩
    else
      match h.opsReadFile with
      | some f => ⟨f lpBuffer n numReadNonNull overlappedNonNull, true⟩
      | none => ⟨false, false⟩

/-- WriteFile (generic.c lines 388-408): the invalid sentinel is rejected and
the call forwards to the operation-table entry when present.  The source has
no null-argument guard here. -/
def WriteFile (hFile : FileHandle) (lpBuffer : Option Nat) (n : Nat)
    (numWrittenNonNull overlappedNonNull : Bool) : DispatchResult :=
  match hFile with
  | .invalid => ⟨false, false⟩
  | .valid h =>
    match h.opsWriteFile with
    | some f => ⟨f lpBuffer n numWrittenNonNull overlappedNonNull, true⟩
    | none => ⟨false, false⟩

/-! ### Creator registry resolution: CreateFileA -/

/-- The result of a creator's open: the invalid sentinel or a concrete
handle value. -/
inductive CFHandle
  | invalid
  | handle (v : Nat)
deriving DecidableEq, Repr

/-- HANDLE_CREATOR: the claim predicate and the open function, its extra
arguments bundled positionally (access, share mode, disposition, flags). -/
structure HANDLE_CREATOR where
  IsHandled : String → Bool
  CreateFileA : String → Nat → Nat → Nat → Nat → CFHandle

/-- The registration-order scan in CreateFileA (generic.c lines 251-263): the
first creator whose claim predicate accepts the path opens the handle.  (The
source loop runs one index past the end of the list; the out-of-range item is
NULL and skipped, so the scan is exactly this list recursion.) -/
def resolveCreators (name : String) (acc shr disp flags : Nat) :
    List HANDLE_CREATOR → CFHandle
  | [] => CFHandle.invalid
  | c :: rest =>
    if c.IsHandled name then c.CreateFileA name acc shr disp flags
    else resolveCreators name acc shr disp flags rest

/-- CreateFileA (generic.c lines 230-267): null name fails; a failed or
null registry fails with the invalid sentinel; otherwise the registered
creators are scanned in order.  The registry is passed explicitly: none
models the initialization-failure case. -/
def CreateFileA (creators : Option (List HANDLE_CREATOR))
    (lpFileName : Option String) (acc shr disp flags : Nat) : CFHandle :=
  match lpFileName with
  | none => CFHandle.invalid
  | some nm =>
    match creators with
    | none => CFHandle.invalid
    | some cs => resolveCreators nm acc shr disp flags cs

/-! ### MoveFileExA -/

def MOVEFILE_REPLACE_EXISTING : Nat := 0x1

/-- The shared tail of MoveFileExA: rename, mapping a native failure to the
foreign error space.  The rename environment returns none on success or the
errno on failure. -/
def moveRename (mapErr : Nat → Nat) (renameE : String → String → Option Nat)
    (lastError : Nat) (oldName newName : String) : Bool × Nat :=
  match renameE oldName newName with
  | none => (true, lastError)
  | some e => (false, mapErr e)

/-- MoveFileExA (generic.c lines 1286-1315): stat the destination; without
the replace flag an existing destination fails with ERROR_ALREADY_EXISTS;
with the replace flag an existing destination without the owner-write bit
fails with ERROR_ACCESS_DENIED; otherwise the native rename decides. -/
def MoveFileExA (mapErr : Nat → Nat) (fs : FileSystem)
    (renameE : String → String → Option Nat) (lastError : Nat)
    (lpExistingFileName lpNewFileName : String) (dwFlags : Nat) : Bool × Nat :=
  let ret := fs.statE lpNewFileName
  if dwFlags &&& MOVEFILE_REPLACE_EXISTING = 0 then
    match ret with
    | .ok _ => (false, ERROR_ALREADY_EXISTS)
    | .error _ => moveRename mapErr renameE lastError lpExistingFileName lpNewFileName
  else
    match ret with
    | .ok fileStat =>
      if fileStat.st_mode &&& S_IWUSR = 0 then (false, ERROR_ACCESS_DENIED)
      else moveRename mapErr renameE lastError lpExistingFileName lpNewFileName
    | .error _ => moveRename mapErr renameE lastError lpExistingFileName lpNewFileName

/-! ### Survivor predicate for enumeration -/

/-- An entry survives enumeration: it matches the pattern, its stat succeeds,
and it is not a FIFO.  Exactly the entries FindNextFileA can return. -/
def survives (fs : FileSystem) (path pattern name : String) : Bool :=
  FilePatternMatchA name pattern &&
    (match fs.statE (mkFullpath path (name.take MAX_PATH)) with
     | .ok fileStat => !(S_ISFIFO fileStat.st_mode)
     | .error _ => false)

/-- No entry of the stream survives enumeration. -/
def survivorFree (fs : FileSystem) (path pattern : String)
    (entries : List String) : Bool :=
  entries.all fun nm => !(survives fs path pattern nm)

/-! ### Concrete fixtures used by witnesses and counterexamples -/

/-- A handle whose write entry is implemented and reports success; used to
exhibit WriteFile's missing null-argument guard. -/
def hWriteOnly : WINPR_HANDLE := ⟨none, some (fun _ _ _ _ => true)⟩

/-- Concrete creators used to witness first-match resolution: two claim
every path (returning handle 1 and handle 2), one claims nothing. -/
def creatorOne : HANDLE_CREATOR := ⟨fun _ => true, fun _ _ _ _ _ => CFHandle.handle 1⟩

def creatorTwo : HANDLE_CREATOR := ⟨fun _ => true, fun _ _ _ _ _ => CFHandle.handle 2⟩

def creatorNever : HANDLE_CREATOR := ⟨fun _ => false, fun _ _ _ _ _ => CFHandle.handle 3⟩

/-- Environment used to witness MoveFileExA: destination dst1 exists and is
read-only, dst2 does not exist, and every rename succeeds. -/
def moveFs : FileSystem :=
  ⟨fun _ => none,
    fun s => if s = "dst1" then .ok ⟨0o100444, 0, 0, 0, 0⟩ else .error 2⟩

/-- Enumeration environment: directory /d/ holds a FIFO, an entry whose stat
fails with errno 13, and a regular file. -/
def fsEnum : FileSystem :=
  ⟨fun s => if s = "/d/" then some ["fifo1", "bad", "ok"] else none,
    fun s =>
      if s = "/d/fifo1" then .ok ⟨0o010644, 0, 0, 0, 0⟩
      else if s = "/d/ok" then .ok ⟨0o100644, 7, 1, 2, 3⟩
      else .error 13⟩

/-- A live search handle over fsEnum's directory at address 0. -/
def searchEnum : SearchState := ⟨file_search_magic, "/d/", "*", ["fifo1", "bad", "ok"]⟩

def stEnum : MachineState := ⟨fun m => if m = 0 then some searchEnum else none, 0⟩

/-- A live search handle whose pattern matches no entry of its stream. -/
def searchNoMatch : SearchState := ⟨file_search_magic, "/d/", "*.txt", ["fifo1", "bad", "ok"]⟩

def stNoMatch : MachineState := ⟨fun m => if m = 0 then some searchNoMatch else none, 0⟩

/-- Environment whose directory /d/ holds only a FIFO, so every search over
it comes back empty. -/
def fsOnlyFifo : FileSystem :=
  ⟨fun s => if s = "/d/" then some ["fifo1"] else none,
    fun s => if s = "/d/fifo1" then .ok ⟨0o010644, 0, 0, 0, 0⟩ else .error 2⟩

/-- An empty machine state: no live handles. -/
def stEmpty : MachineState := ⟨fun _ => none, 0⟩

/-- A visibly non-zero record, used to witness that failing calls leave the
caller's record untouched. -/
def findDataProbe : WIN32_FIND_DATAA :=
  { emptyFindData with dwFileAttributes := 7, cFileName := "probe" }

/-- A stale-memory state with one live search handle at address 0. -/
def staleInit : StaleHeapState :=
  ⟨fun m => if m = 0 then some ⟨file_search_magic, "/d/", "*", []⟩ else none,
    fun m => m == 0⟩

/-! ### Helper lemmas -/

theorem updateHeap_self (heap : Heap) (n : Nat) (s : SearchState) :
    updateHeap heap n s n = some s := by
  simp [updateHeap]

theorem updateHeap_of_eq (heap : Heap) (n : Nat) (s : SearchState)
    (h : heap n = some s) : updateHeap heap n s = heap := by
  funext m
  by_cases hm : m = n <;> simp [updateHeap, hm, h]

theorem eraseHeap_updateHeap (heap : Heap) (n : Nat) (s : SearchState) :
    eraseHeap (updateHeap heap n s) n = eraseHeap heap n := by
  funext m
  by_cases hm : m = n <;> simp [eraseHeap, updateHeap, hm]

theorem eraseHeap_of_none (heap : Heap) (n : Nat) (h : heap n = none) :
    eraseHeap heap n = heap := by
  funext m
  by_cases hm : m = n <;> simp [eraseHeap, hm, h]

/-- A handle that passes the validity check is an address with a live,
correctly tagged allocation. -/
theorem hvalid_eq (heap : Heap) (h : HandleV) (n : Nat) (s : SearchState)
    (hv : hvalid heap h = some (n, s)) :
    h = HandleV.id n ∧ heap n = some s ∧ s.magic = file_search_magic := by
  cases h with
  | null => simp [hvalid] at hv
  | invalidSentinel => simp [hvalid] at hv
  | id m =>
    rcases hm : heap m with _ | s2 <;> simp [hvalid, hm] at hv
    by_cases hmagic : s2.magic = file_search_magic
    · simp only [hmagic, if_true, Option.some.injEq, Prod.mk.injEq, true_and] at hv
      obtain ⟨hn, hs⟩ := hv
      subst hn
      subst hs
      exact ⟨rfl, hm, hmagic⟩
    · simp [hmagic] at hv

/-! ### C1: attribute translation -/

/-- C1 (counterexample): for the stat of a regular, hidden, read-only file
the translated bitmask has the archive bit set together with the hidden and
readonly bits, so the archive bit is not reserved for records where no other
attribute bit applies. -/
theorem findDataFromStat_archive_with_hidden :
    (FindDataFromStat "/d/.f" ⟨0o100444, 0, 0, 0, 0⟩ emptyFindData).dwFileAttributes &&&
        FILE_ATTRIBUTE_ARCHIVE ≠ 0 ∧
      (FindDataFromStat "/d/.f" ⟨0o100444, 0, 0, 0, 0⟩ emptyFindData).dwFileAttributes &&&
        (FILE_ATTRIBUTE_HIDDEN ||| FILE_ATTRIBUTE_READONLY) ≠ 0 := by
  decide

/-- C1 (amended): in every record translated from a stat result, the
directory bit is set iff the native mode indicates a directory, the readonly
bit iff the owner-write bit is absent, the hidden bit iff the base name after
the last separator has at least two characters, begins with a dot and its
second character is not a dot, and the archive bit iff the directory bit is
not set (the archive default is decided before the hidden and readonly bits
are added, so it coexists with them). -/
theorem findDataFromStat_attribute_bits (path : String) (fileStat : Stat)
    (fd : WIN32_FIND_DATAA) :
    let a := (FindDataFromStat path fileStat fd).dwFileAttributes
    (a &&& FILE_ATTRIBUTE_DIRECTORY ≠ 0 ↔ S_ISDIR fileStat.st_mode = true) ∧
      (a &&& FILE_ATTRIBUTE_READONLY ≠ 0 ↔ fileStat.st_mode &&& S_IWUSR = 0) ∧
      (a &&& FILE_ATTRIBUTE_HIDDEN ≠ 0 ↔ hiddenName path = true) ∧
      (a &&& FILE_ATTRIBUTE_ARCHIVE ≠ 0 ↔ S_ISDIR fileStat.st_mode = false) := by
  intro a
  have ha : a = (FindDataFromStat path fileStat fd).dwFileAttributes := rfl
  rw [ha]
  by_cases hro : fileStat.st_mode &&& S_IWUSR = 0 <;>
    cases hdir : S_ISDIR fileStat.st_mode <;>
      rcases hsuf : strrchrSuffix path.data '/' with _ | ⟨_ | ⟨c0, _ | ⟨c1, cs⟩⟩⟩ <;>
        simp only [FindDataFromStat, hiddenName, hsuf, hdir, hro, if_true, if_false,
          Bool.false_eq_true, Bool.true_eq_false] <;>
        (try split_ifs with hh) <;>
        (try simp_all [FILE_ATTRIBUTE_DIRECTORY, FILE_ATTRIBUTE_READONLY,
          FILE_ATTRIBUTE_HIDDEN, FILE_ATTRIBUTE_ARCHIVE]) <;>
        (try decide) <;>
        (constructor <;> (try decide)) <;> tauto

/-! ### C2: null-argument guarding in ReadFile / WriteFile -/

/-- C2 (counterexample): with both the bytes-written pointer and the
overlapped parameter null, WriteFile still invokes the handle's
operation-table entry and returns its result (here TRUE), so WriteFile does
not fail on null arguments without dispatching. -/
theorem writeFile_null_args_dispatches :
    WriteFile (FileHandle.valid hWriteOnly) none 0 false false =
      ⟨true, true⟩ := by
  rfl

/-- C2 (amended): ReadFile returns FALSE without consulting the operation
table whenever both the bytes-read pointer and the overlapped parameter are
null; WriteFile performs no such null-argument check and forwards the
arguments verbatim to the operation-table entry whenever one is present. -/
theorem readFile_guards_writeFile_forwards :
    (∀ hFile lpBuffer n, ReadFile hFile lpBuffer n false false = ⟨false, false⟩) ∧
      ∀ h lpBuffer n numWrittenNonNull overlappedNonNull f,
        h.opsWriteFile = some f →
        WriteFile (FileHandle.valid h) lpBuffer n numWrittenNonNull overlappedNonNull =
          ⟨f lpBuffer n numWrittenNonNull overlappedNonNull, true⟩ := by
  constructor
  · intro hFile lpBuffer n
    cases hFile <;> rfl
  · intro h lpBuffer n nw ov f hf
    simp [WriteFile, hf]

/-- Witness for the amended C2 theorem at concrete arguments. -/
theorem readFile_guards_writeFile_forwards_witness :
    ReadFile (FileHandle.valid hWriteOnly) none 5 false false = ⟨false, false⟩ ∧
      WriteFile (FileHandle.valid hWriteOnly) none 5 false false = ⟨true, true⟩ :=
  ⟨readFile_guards_writeFile_forwards.1 (FileHandle.valid hWriteOnly) none 5,
    readFile_guards_writeFile_forwards.2 hWriteOnly none 5 false false _ rfl⟩

/-! ### C6: first-match creator resolution -/

/-- C6 (confirmed): CreateFileA scans the registered creators in
registration order; writing the list as earlier creators, the winning
creator, and the rest, if no earlier creator claims the path and the winning
creator does, the open goes through that creator; if no creator at all claims
the path, the invalid-handle sentinel is returned.  Determinism across
repeated calls is purity of the definition. -/
theorem createFileA_first_match_resolution (cs : List HANDLE_CREATOR)
    (nm : String) (acc shr disp flags : Nat) :
    ((∀ c ∈ cs, c.IsHandled nm = false) →
        CreateFileA (some cs) (some nm) acc shr disp flags = CFHandle.invalid) ∧
      ∀ earlier winner later, cs = earlier ++ winner :: later →
        (∀ c ∈ earlier, c.IsHandled nm = false) → winner.IsHandled nm = true →
        CreateFileA (some cs) (some nm) acc shr disp flags =
          winner.CreateFileA nm acc shr disp flags := by
  constructor
  · intro hnone
    show resolveCreators nm acc shr disp flags cs = CFHandle.invalid
    induction cs with
    | nil => rfl
    | cons c rest ih =>
      have hc := hnone c (List.mem_cons_self c rest)
      simp only [resolveCreators, hc, if_false, Bool.false_eq_true]
      exact ih fun c hmem => hnone c (List.mem_cons_of_mem _ hmem)
  · intro earlier winner later hsplit hearlier hwin
    subst hsplit
    show resolveCreators nm acc shr disp flags (earlier ++ winner :: later) = _
    induction earlier with
    | nil => simp [resolveCreators, hwin]
    | cons c rest ih =>
      have hc := hearlier c (List.mem_cons_self c rest)
      simp only [List.cons_append, resolveCreators, hc, if_false, Bool.false_eq_true]
      exact ih fun c hmem => hearlier c (List.mem_cons_of_mem _ hmem)

/-- Witness for C6: with a non-claiming creator first and two claiming
creators after it, the earliest claiming creator wins; with only the
non-claiming creator, the open fails with the invalid sentinel. -/
theorem createFileA_first_match_resolution_witness :
    CreateFileA (some [creatorNever, creatorOne, creatorTwo]) (some "/tmp/x") 1 2 3 4 =
        CFHandle.handle 1 ∧
      CreateFileA (some [creatorNever]) (some "/tmp/x") 1 2 3 4 = CFHandle.invalid :=
  ⟨(createFileA_first_match_resolution [creatorNever, creatorOne, creatorTwo]
        "/tmp/x" 1 2 3 4).2 [creatorNever] creatorOne [creatorTwo] rfl
      (by intro c hc; simp at hc; subst hc; rfl) rfl,
    (createFileA_first_match_resolution [creatorNever] "/tmp/x" 1 2 3 4).1
      (by intro c hc; simp at hc; subst hc; rfl)⟩

/-! ### C7: MoveFileExA semantics -/

/-- C7 (confirmed): without the replace flag an existing destination fails
with ERROR_ALREADY_EXISTS; with the replace flag an existing destination
whose owner-write bit is clear fails with ERROR_ACCESS_DENIED; in every
other case the call succeeds iff the native rename succeeds. -/
theorem moveFileExA_replace_semantics (mapErr : Nat → Nat) (fs : FileSystem)
    (renameE : String → String → Option Nat) (lastError : Nat)
    (oldName newName : String) (dwFlags : Nat) :
    ((dwFlags &&& MOVEFILE_REPLACE_EXISTING = 0) →
        ∀ s, fs.statE newName = .ok s →
        MoveFileExA mapErr fs renameE lastError oldName newName dwFlags =
          (false, ERROR_ALREADY_EXISTS)) ∧
      ((dwFlags &&& MOVEFILE_REPLACE_EXISTING ≠ 0) →
        ∀ s, fs.statE newName = .ok s → s.st_mode &&& S_IWUSR = 0 →
        MoveFileExA mapErr fs renameE lastError oldName newName dwFlags =
          (false, ERROR_ACCESS_DENIED)) ∧
      (∀ e, fs.statE newName = .error e →
        ((MoveFileExA mapErr fs renameE lastError oldName newName dwFlags).1 = true ↔
          renameE oldName newName = none)) ∧
      ((dwFlags &&& MOVEFILE_REPLACE_EXISTING ≠ 0) →
        ∀ s, fs.statE newName = .ok s → s.st_mode &&& S_IWUSR ≠ 0 →
        ((MoveFileExA mapErr fs renameE lastError oldName newName dwFlags).1 = true ↔
          renameE oldName newName = none)) := by
  refine ⟨?_, ?_, ?_, ?_⟩
  · intro hflag s hstat
    simp [MoveFileExA, hflag, hstat]
  · intro hflag s hstat hro
    simp [MoveFileExA, hflag, hstat, hro]
  · intro e hstat
    by_cases hflag : dwFlags &&& MOVEFILE_REPLACE_EXISTING = 0 <;>
      simp [MoveFileExA, hflag, hstat, moveRename] <;>
      cases hr : renameE oldName newName <;> simp [hr]
  · intro hflag s hstat hw
    simp only [MoveFileExA, hflag, if_false, hstat, hw, moveRename]
    cases hr : renameE oldName newName <;> simp [hr, hw]

/-- Witness for C7: moving onto the existing dst1 without the replace flag
reports already-exists; with the replace flag onto read-only dst1 reports
access-denied; with the replace flag onto the absent dst2 the result is the
rename result (success). -/
theorem moveFileExA_replace_semantics_witness :
    MoveFileExA id moveFs (fun _ _ => none) 0 "src" "dst1" 0 =
        (false, ERROR_ALREADY_EXISTS) ∧
      MoveFileExA id moveFs (fun _ _ => none) 0 "src" "dst1"
          MOVEFILE_REPLACE_EXISTING = (false, ERROR_ACCESS_DENIED) ∧
      (MoveFileExA id moveFs (fun _ _ => none) 0 "src" "dst2"
          MOVEFILE_REPLACE_EXISTING).1 = true :=
  ⟨(moveFileExA_replace_semantics id moveFs (fun _ _ => none) 0 "src" "dst1" 0).1
      (by decide) ⟨0o100444, 0, 0, 0, 0⟩ rfl,
    (moveFileExA_replace_semantics id moveFs (fun _ _ => none) 0 "src" "dst1"
        MOVEFILE_REPLACE_EXISTING).2.1
      (by decide) ⟨0o100444, 0, 0, 0, 0⟩ rfl (by decide),
    ((moveFileExA_replace_semantics id moveFs (fun _ _ => none) 0 "src" "dst2"
        MOVEFILE_REPLACE_EXISTING).2.2.1 2 rfl).2 rfl⟩

/-- file_search_new always installs the validity tag. -/
theorem file_search_new_magic (fs : FileSystem) (name : String) (namelen : Nat)
    (pattern : String) (patternlen : Nat) (s : SearchState)
    (h : file_search_new fs name namelen pattern patternlen = some s) :
    s.magic = file_search_magic := by
  simp only [file_search_new] at h
  rcases h1 : fs.opendirE (name.take namelen) with _ | entries <;>
    simp only [h1] at h
  · rcases h2 : fs.statE name with e | fst <;> simp only [h2] at h
    · exact Option.noConfusion h
    · by_cases h3 : S_ISDIR fst.st_mode = true <;>
        simp only [h3, if_true, if_false, Bool.false_eq_true] at h
      · rcases h4 : fs.opendirE name with _ | entries2 <;> simp only [h4] at h
        · exact Option.noConfusion h
        · injection h with h5
          subst h5
          rfl
      · exact Option.noConfusion h
  · injection h with h5
    subst h5
    rfl

/-- One loop step: a non-matching entry is passed over. -/
theorem findNext_cons_nomatch (mapErr : Nat → Nat) (fs : FileSystem)
    (path pattern name : String) (rest : List String) (fd : WIN32_FIND_DATAA)
    (le : Nat) (hm : FilePatternMatchA name pattern = false) :
    findNextFromEntries mapErr fs path pattern (name :: rest) fd le =
      findNextFromEntries mapErr fs path pattern rest fd le := by
  simp [findNextFromEntries, hm]

/-- One loop step: a matching entry whose stat fails is skipped, and the
mapped errno becomes the recorded last error. -/
theorem findNext_cons_statfail (mapErr : Nat → Nat) (fs : FileSystem)
    (path pattern name : String) (rest : List String) (fd : WIN32_FIND_DATAA)
    (le e : Nat) (hm : FilePatternMatchA name pattern = true)
    (hst : fs.statE (mkFullpath path (name.take MAX_PATH)) = .error e) :
    findNextFromEntries mapErr fs path pattern (name :: rest) fd le =
      findNextFromEntries mapErr fs path pattern rest
        { fd with cFileName := name.take MAX_PATH } (mapErr e) := by
  simp [findNextFromEntries, hm, hst]

/-- One loop step: a matching FIFO entry is skipped silently. -/
theorem findNext_cons_fifo (mapErr : Nat → Nat) (fs : FileSystem)
    (path pattern name : String) (rest : List String) (fd : WIN32_FIND_DATAA)
    (le : Nat) (fst : Stat) (hm : FilePatternMatchA name pattern = true)
    (hst : fs.statE (mkFullpath path (name.take MAX_PATH)) = .ok fst)
    (hfifo : S_ISFIFO fst.st_mode = true) :
    findNextFromEntries mapErr fs path pattern (name :: rest) fd le =
      findNextFromEntries mapErr fs path pattern rest
        { fd with cFileName := name.take MAX_PATH } le := by
  simp [findNextFromEntries, hm, hst, hfifo]

/-- One loop step: a matching, stat-resolved, non-FIFO entry is translated
and returned with the stream positioned after it. -/
theorem findNext_cons_found (mapErr : Nat → Nat) (fs : FileSystem)
    (path pattern name : String) (rest : List String) (fd : WIN32_FIND_DATAA)
    (le : Nat) (fst : Stat) (hm : FilePatternMatchA name pattern = true)
    (hst : fs.statE (mkFullpath path (name.take MAX_PATH)) = .ok fst)
    (hfifo : S_ISFIFO fst.st_mode = false) :
    findNextFromEntries mapErr fs path pattern (name :: rest) fd le =
      ⟨true, FindDataFromStat (mkFullpath path (name.take MAX_PATH)) fst
        { fd with cFileName := name.take MAX_PATH }, rest, le⟩ := by
  simp [findNextFromEntries, hm, hst, hfifo]

/-- A failed pass of the readdir loop leaves the stream empty, reports
ERROR_NO_MORE_FILES, and has written at most the cFileName field of the
record (the name of the last matching-but-skipped candidate). -/
theorem findNext_not_found_shape (mapErr : Nat → Nat) (fs : FileSystem)
    (path pattern : String) :
    ∀ (entries : List String) (fd : WIN32_FIND_DATAA) (le : Nat),
      (findNextFromEntries mapErr fs path pattern entries fd le).found = false →
      (findNextFromEntries mapErr fs path pattern entries fd le).rest = [] ∧
        (findNextFromEntries mapErr fs path pattern entries fd le).lastErr =
          ERROR_NO_MORE_FILES ∧
        ∃ leak, (findNextFromEntries mapErr fs path pattern entries fd le).fd =
          { fd with cFileName := leak } := by
  intro entries
  induction entries with
  | nil =>
    intro fd le _
    exact ⟨rfl, rfl, fd.cFileName, rfl⟩
  | cons name rest ih =>
    intro fd le h
    by_cases hm : FilePatternMatchA name pattern = true
    · rcases hst : fs.statE (mkFullpath path (name.take MAX_PATH)) with e | fst
      · rw [findNext_cons_statfail mapErr fs path pattern name rest fd le e hm hst] at h ⊢
        obtain ⟨h1, h2, leak, h3⟩ := ih _ _ h
        exact ⟨h1, h2, leak, h3⟩
      · by_cases hfifo : S_ISFIFO fst.st_mode = true
        · rw [findNext_cons_fifo mapErr fs path pattern name rest fd le fst hm hst hfifo]
            at h ⊢
          obtain ⟨h1, h2, leak, h3⟩ := ih _ _ h
          exact ⟨h1, h2, leak, h3⟩
        · rw [findNext_cons_found mapErr fs path pattern name rest fd le fst hm hst
            (Bool.not_eq_true _ ▸ hfifo)] at h
          simp at h
    · rw [findNext_cons_nomatch mapErr fs path pattern name rest fd le
        (Bool.not_eq_true _ ▸ hm)] at h ⊢
      exact ih _ _ h

/-- A successful pass of the readdir loop returns the translation of some
stream entry that matches the pattern, whose stat succeeded, and which is not
a FIFO. -/
theorem findNext_found_source (mapErr : Nat → Nat) (fs : FileSystem)
    (path pattern : String) :
    ∀ (entries : List String) (fd : WIN32_FIND_DATAA) (le : Nat),
      (findNextFromEntries mapErr fs path pattern entries fd le).found = true →
      ∃ nm fileStat, nm ∈ entries ∧ FilePatternMatchA nm pattern = true ∧
        fs.statE (mkFullpath path (nm.take MAX_PATH)) = .ok fileStat ∧
        S_ISFIFO fileStat.st_mode = false ∧
        (findNextFromEntries mapErr fs path pattern entries fd le).fd =
          FindDataFromStat (mkFullpath path (nm.take MAX_PATH)) fileStat
            { fd with cFileName := nm.take MAX_PATH } := by
  intro entries
  induction entries with
  | nil =>
    intro fd le h
    simp [findNextFromEntries] at h
  | cons name rest ih =>
    intro fd le h
    by_cases hm : FilePatternMatchA name pattern = true
    · rcases hst : fs.statE (mkFullpath path (name.take MAX_PATH)) with e | fst
      · rw [findNext_cons_statfail mapErr fs path pattern name rest fd le e hm hst] at h ⊢
        obtain ⟨nm, fileStat, hmem, h1, h2, h3, h4⟩ := ih _ _ h
        exact ⟨nm, fileStat, List.mem_cons_of_mem _ hmem, h1, h2, h3, h4⟩
      · by_cases hfifo : S_ISFIFO fst.st_mode = true
        · rw [findNext_cons_fifo mapErr fs path pattern name rest fd le fst hm hst hfifo]
            at h ⊢
          obtain ⟨nm, fileStat, hmem, h1, h2, h3, h4⟩ := ih _ _ h
          exact ⟨nm, fileStat, List.mem_cons_of_mem _ hmem, h1, h2, h3, h4⟩
        · rw [findNext_cons_found mapErr fs path pattern name rest fd le fst hm hst
            (Bool.not_eq_true _ ▸ hfifo)]
          exact ⟨name, fst, List.mem_cons_self name rest, hm, hst,
            Bool.not_eq_true _ ▸ hfifo, rfl⟩
    · rw [findNext_cons_nomatch mapErr fs path pattern name rest fd le
        (Bool.not_eq_true _ ▸ hm)] at h ⊢
      obtain ⟨nm, fileStat, hmem, h1, h2, h3, h4⟩ := ih _ _ h
      exact ⟨nm, fileStat, List.mem_cons_of_mem _ hmem, h1, h2, h3, h4⟩

/-- When no entry of the stream survives, the readdir loop fails. -/
theorem findNext_survivorFree_not_found (mapErr : Nat → Nat) (fs : FileSystem)
    (path pattern : String) :
    ∀ (entries : List String) (fd : WIN32_FIND_DATAA) (le : Nat),
      survivorFree fs path pattern entries = true →
      (findNextFromEntries mapErr fs path pattern entries fd le).found = false := by
  intro entries
  induction entries with
  | nil => intro fd le _; rfl
  | cons name rest ih =>
    intro fd le hsf
    simp only [survivorFree, List.all_cons, Bool.and_eq_true, Bool.not_eq_true'] at hsf
    obtain ⟨hhead, htail⟩ := hsf
    by_cases hm : FilePatternMatchA name pattern = true
    · rcases hst : fs.statE (mkFullpath path (name.take MAX_PATH)) with e | fst
      · rw [findNext_cons_statfail mapErr fs path pattern name rest fd le e hm hst]
        exact ih _ _ htail
      · have hfifo : S_ISFIFO fst.st_mode = true := by
          simp only [survives, hm, hst, Bool.true_and, Bool.not_eq_false'] at hhead
          exact hhead
        rw [findNext_cons_fifo mapErr fs path pattern name rest fd le fst hm hst hfifo]
        exact ih _ _ htail
    · rw [findNext_cons_nomatch mapErr fs path pattern name rest fd le
        (Bool.not_eq_true _ ▸ hm)]
      exact ih _ _ htail

/-! ### C4: FIFO entries and stat failures are skipped -/

/-- C4 (confirmed): on a valid search handle, a successful FindNextFileA
result is the translation of a stream entry whose stat succeeded and which is
not a FIFO; and a matching entry whose stat fails is skipped: the loop
continues with the remaining entries, carrying the mapped errno as the
recorded last error. -/
theorem findNextFileA_skips_fifo_and_stat_failures (mapErr : Nat → Nat)
    (fs : FileSystem) (st : MachineState) (hFind : HandleV) (n : Nat)
    (s : SearchState) (fd0 : WIN32_FIND_DATAA)
    (hv : hvalid st.heap hFind = some (n, s)) :
    ((FindNextFileA mapErr fs st hFind (some fd0)).1 = true →
        ∃ nm fileStat, nm ∈ s.pDir ∧ FilePatternMatchA nm s.lpPattern = true ∧
          fs.statE (mkFullpath s.lpPath (nm.take MAX_PATH)) = .ok fileStat ∧
          S_ISFIFO fileStat.st_mode = false ∧
          (FindNextFileA mapErr fs st hFind (some fd0)).2.1 =
            some (FindDataFromStat (mkFullpath s.lpPath (nm.take MAX_PATH)) fileStat
              { emptyFindData with cFileName := nm.take MAX_PATH })) ∧
      ∀ nm rest e fd le, FilePatternMatchA nm s.lpPattern = true →
        fs.statE (mkFullpath s.lpPath (nm.take MAX_PATH)) = .error e →
        findNextFromEntries mapErr fs s.lpPath s.lpPattern (nm :: rest) fd le =
          findNextFromEntries mapErr fs s.lpPath s.lpPattern rest
            { fd with cFileName := nm.take MAX_PATH } (mapErr e) := by
  constructor
  · intro h
    simp only [FindNextFileA, hv] at h ⊢
    obtain ⟨nm, fileStat, hmem, h1, h2, h3, h4⟩ :=
      findNext_found_source mapErr fs s.lpPath s.lpPattern s.pDir emptyFindData
        st.lastError h
    exact ⟨nm, fileStat, hmem, h1, h2, h3, by rw [h4]⟩
  · intro nm rest e fd le hm hst
    simp only [findNextFromEntries, hm, if_true, hst]

/-- Witness for C4: on the concrete directory stream holding a FIFO, an entry
with failing stat, and a regular file, applying the theorem at the live
handle shows the skip equation for the stat-failing entry. -/
theorem findNextFileA_skips_fifo_and_stat_failures_witness :
    findNextFromEntries id fsEnum searchEnum.lpPath searchEnum.lpPattern
        ["bad", "ok"] emptyFindData 0 =
      findNextFromEntries id fsEnum searchEnum.lpPath searchEnum.lpPattern ["ok"]
        { emptyFindData with cFileName := "bad".take MAX_PATH } (id 13) :=
  (findNextFileA_skips_fifo_and_stat_failures id fsEnum stEnum (HandleV.id 0) 0
      searchEnum emptyFindData rfl).2 "bad" ["ok"] 13 emptyFindData 0 (by decide) rfl

/-! ### C5: exhaustion is an idempotent terminal state -/

/-- C5 (confirmed): when a valid handle's stream has no surviving match, the
FindNextFileA call fails, records ERROR_NO_MORE_FILES, and the resulting
state is a fixpoint: every subsequent FindNextFileA call on the same handle
returns FALSE with a zeroed record and ERROR_NO_MORE_FILES, leaving the state
unchanged — hence this holds for arbitrarily many repeated calls. -/
theorem findNextFileA_exhaustion_idempotent (mapErr : Nat → Nat) (fs : FileSystem)
    (st : MachineState) (hFind : HandleV) (n : Nat) (s : SearchState)
    (fd0 : WIN32_FIND_DATAA) (st1 : MachineState)
    (hv : hvalid st.heap hFind = some (n, s))
    (hex : (findNextFromEntries mapErr fs s.lpPath s.lpPattern s.pDir emptyFindData
      st.lastError).found = false)
    (hst1 : (FindNextFileA mapErr fs st hFind (some fd0)).2.2 = st1) :
    (FindNextFileA mapErr fs st hFind (some fd0)).1 = false ∧
      st1.lastError = ERROR_NO_MORE_FILES ∧
      ∀ fd1, FindNextFileA mapErr fs st1 hFind (some fd1) =
        (false, some emptyFindData, st1) := by
  obtain ⟨hh, hhn, hmagic⟩ := hvalid_eq st.heap hFind n s hv
  subst hh
  obtain ⟨hrest, herr, -⟩ := findNext_not_found_shape mapErr fs s.lpPath s.lpPattern
    s.pDir emptyFindData st.lastError hex
  simp only [FindNextFileA, hv] at hst1 ⊢
  rw [hrest, herr] at hst1
  subst hst1
  refine ⟨hex, rfl, ?_⟩
  intro fd1
  have hv2 : hvalid (updateHeap st.heap n { s with pDir := [] }) (HandleV.id n) =
      some (n, { s with pDir := [] }) := by
    simp [hvalid, updateHeap_self, hmagic]
  simp only [FindNextFileA, hv2, findNextFromEntries]
  rw [updateHeap_of_eq _ _ _ (updateHeap_self st.heap n { s with pDir := [] })]

/-- Witness for C5: a handle whose pattern matches nothing; the first call
exhausts the stream and the second call reproduces the no-more-files result
with the state unchanged. -/
theorem findNextFileA_exhaustion_idempotent_witness :
    (FindNextFileA id fsEnum stNoMatch (HandleV.id 0) (some emptyFindData)).1 = false ∧
      ((FindNextFileA id fsEnum stNoMatch (HandleV.id 0)
        (some emptyFindData)).2.2).lastError = ERROR_NO_MORE_FILES ∧
      FindNextFileA id fsEnum
          ((FindNextFileA id fsEnum stNoMatch (HandleV.id 0) (some emptyFindData)).2.2)
          (HandleV.id 0) (some emptyFindData) =
        (false, some emptyFindData,
          (FindNextFileA id fsEnum stNoMatch (HandleV.id 0) (some emptyFindData)).2.2) :=
  have T := findNextFileA_exhaustion_idempotent id fsEnum stNoMatch (HandleV.id 0) 0
    searchNoMatch emptyFindData
    ((FindNextFileA id fsEnum stNoMatch (HandleV.id 0) (some emptyFindData)).2.2)
    rfl (by decide) rfl
  ⟨T.1, T.2.1, T.2.2 emptyFindData⟩

/-! ### C10: a search that matches nothing never yields a live handle -/

/-- C10 (confirmed): when the name splits into a directory part and a
non-empty pattern, the search state opens, and no stream entry survives
(no match, or every match is a FIFO or fails stat), FindFirstFileA returns
the invalid-handle sentinel with last error ERROR_NO_MORE_FILES and the
handle heap exactly as before the call: the allocated search state was
released and the caller never holds a live handle that would yield zero
records. -/
theorem findFirstFileA_no_match_frees_and_fails (mapErr : Nat → Nat)
    (fs : FileSystem) (st : MachineState) (freshId : Nat) (nm : String)
    (fd0 : WIN32_FIND_DATAA) (pat : List Char) (s : SearchState)
    (hfresh : st.heap freshId = none)
    (hsplit : strrchrSuffix nm.data '/' = some pat)
    (hlen : pat.length ≠ 0)
    (hnew : file_search_new fs nm (nm.length - pat.length) (String.mk pat)
      pat.length = some s)
    (hnos : survivorFree fs s.lpPath s.lpPattern s.pDir = true) :
    (FindFirstFileA mapErr fs st freshId (some nm) (some fd0)).1 =
        HandleV.invalidSentinel ∧
      (FindFirstFileA mapErr fs st freshId (some nm) (some fd0)).2.2.heap = st.heap ∧
      (FindFirstFileA mapErr fs st freshId (some nm) (some fd0)).2.2.lastError =
        ERROR_NO_MORE_FILES := by
  have hmagic := file_search_new_magic _ _ _ _ _ _ hnew
  have hfound := findNext_survivorFree_not_found mapErr fs s.lpPath s.lpPattern
    s.pDir emptyFindData st.lastError hnos
  obtain ⟨hrest, herr, -⟩ := findNext_not_found_shape mapErr fs s.lpPath s.lpPattern
    s.pDir emptyFindData st.lastError hfound
  have hv1 : hvalid (updateHeap st.heap freshId s) (HandleV.id freshId) =
      some (freshId, s) := by
    simp [hvalid, updateHeap_self, hmagic]
  have hv2 : hvalid (updateHeap (updateHeap st.heap freshId s) freshId
      { s with pDir := [] }) (HandleV.id freshId) =
      some (freshId, { s with pDir := [] }) := by
    simp [hvalid, updateHeap_self, hmagic]
  simp only [FindFirstFileA, hsplit, if_neg hlen, hnew, FindNextFileA, hv1, hfound,
    Bool.false_eq_true, if_false, FindClose, hrest, herr]
  rw [if_neg (by simp : ¬(HandleV.id freshId = HandleV.null))]
  simp only [hv2, eraseHeap_updateHeap, eraseHeap_of_none st.heap freshId hfresh]
  exact ⟨trivial, trivial, trivial⟩

/-- Witness for C10: over a directory holding only a FIFO, the search for
every entry comes back with the sentinel, no-more-files, and no live
handle. -/
theorem findFirstFileA_no_match_frees_and_fails_witness :
    (FindFirstFileA id fsOnlyFifo stEmpty 0 (some "/d/*") (some emptyFindData)).1 =
        HandleV.invalidSentinel ∧
      (FindFirstFileA id fsOnlyFifo stEmpty 0 (some "/d/*")
        (some emptyFindData)).2.2.heap = stEmpty.heap ∧
      (FindFirstFileA id fsOnlyFifo stEmpty 0 (some "/d/*")
        (some emptyFindData)).2.2.lastError = ERROR_NO_MORE_FILES :=
  findFirstFileA_no_match_frees_and_fails id fsOnlyFifo stEmpty 0 "/d/*"
    emptyFindData ['*'] ⟨file_search_magic, "/d/", "*", ["fifo1"]⟩
    rfl rfl (by decide) rfl (by decide)

/-! ### C3: what FindFirstFileA writes on failure -/

/-- C3 (counterexample): searching a directory whose only entry is a FIFO
matching the pattern fails with the invalid-handle sentinel, but the record
handed back to the caller is not all-zero: the skipped candidate's name was
already copied into the name field before the entry was rejected. -/
theorem findFirstFileA_failure_record_not_zero :
    (FindFirstFileA id fsOnlyFifo stEmpty 0 (some "/d/*") (some emptyFindData)).1 =
        HandleV.invalidSentinel ∧
      (FindFirstFileA id fsOnlyFifo stEmpty 0 (some "/d/*") (some emptyFindData)).2.1 ≠
        some emptyFindData := by
  constructor
  · decide
  · decide

/-- C3 (amended): when both the file name and the output record are non-null,
every FindFirstFileA failure leaves the record all-zero except possibly the
name field, which may retain the name of the last matching-but-skipped
candidate; with a null file name the record is left untouched; and
FindFirstFileW leaves the caller's record untouched whenever the underlying
narrow search fails (only a failure of the wide string conversion after a
successful search can leave it partially written). -/
theorem findFirstFileA_failure_zeroes_all_but_name (mapErr : Nat → Nat)
    (fs : FileSystem) (convOk : String → Bool) (st : MachineState)
    (freshId : Nat) (nm : String) (fd0 : WIN32_FIND_DATAA) :
    ((FindFirstFileA mapErr fs st freshId (some nm) (some fd0)).1 =
        HandleV.invalidSentinel →
      ((FindFirstFileA mapErr fs st freshId (some nm) (some fd0)).2.1).map
        (fun fd => { fd with cFileName := "" }) = some emptyFindData) ∧
      (FindFirstFileA mapErr fs st freshId none (some fd0)).2.1 = some fd0 ∧
      ((FindFirstFileA mapErr fs st freshId (some nm) (some emptyFindData)).1 =
          HandleV.invalidSentinel →
        (FindFirstFileW mapErr fs convOk st freshId (some nm) (some fd0)).2.1 =
          some fd0) := by
  refine ⟨?_, rfl, ?_⟩
  · intro hfail
    rcases hsplit : strrchrSuffix nm.data '/' with _ | pat
    · simp only [FindFirstFileA, hsplit, Option.map]
      rfl
    · by_cases hlen : pat.length = 0
      · simp only [FindFirstFileA, hsplit, if_pos hlen, Option.map]
        rfl
      · rcases hnew : file_search_new fs nm (nm.length - pat.length) (String.mk pat)
          pat.length with _ | s
        · simp only [FindFirstFileA, hsplit, if_neg hlen, hnew, Option.map]
          rfl
        · have hmagic := file_search_new_magic _ _ _ _ _ _ hnew
          have hv1 : hvalid (updateHeap st.heap freshId s) (HandleV.id freshId) =
              some (freshId, s) := by
            simp [hvalid, updateHeap_self, hmagic]
          by_cases hfound : (findNextFromEntries mapErr fs s.lpPath s.lpPattern s.pDir
              emptyFindData st.lastError).found = true
          · simp only [FindFirstFileA, hsplit, if_neg hlen, hnew, FindNextFileA, hv1,
              hfound, if_true] at hfail
            exact absurd hfail (by simp)
          · obtain ⟨-, -, leak, hfd⟩ := findNext_not_found_shape mapErr fs s.lpPath
              s.lpPattern s.pDir emptyFindData st.lastError
              (Bool.not_eq_true _ ▸ hfound)
            simp only [FindFirstFileA, hsplit, if_neg hlen, hnew, FindNextFileA, hv1,
              Bool.not_eq_true _ ▸ hfound, Bool.false_eq_true, if_false]
            rw [hfd]
            rfl
  · intro hfail
    simp [FindFirstFileW, hfail]

/-- Witness for the amended C3 theorem at a concrete failing search, with a
visibly non-zero caller record for the untouched clauses. -/
theorem findFirstFileA_failure_zeroes_all_but_name_witness :
    ((FindFirstFileA id fsOnlyFifo stEmpty 0 (some "/d/*")
          (some findDataProbe)).2.1).map (fun fd => { fd with cFileName := "" }) =
        some emptyFindData ∧
      (FindFirstFileA id fsOnlyFifo stEmpty 0 none
        (some findDataProbe)).2.1 = some findDataProbe ∧
      (FindFirstFileW id fsOnlyFifo (fun _ => true) stEmpty 0 (some "/d/*")
        (some findDataProbe)).2.1 = some findDataProbe :=
  have T := findFirstFileA_failure_zeroes_all_but_name id fsOnlyFifo (fun _ => true)
    stEmpty 0 "/d/*" findDataProbe
  ⟨T.1 (by decide), T.2.1, T.2.2 (by decide)⟩

/-! ### C8: the double-close guard -/

/-- C8 (code evaluated at the failing input): FindClose frees the
WIN32_FILE_SEARCH block without clearing its magic tag, so in the typical
execution of the resulting use-after-free — freed memory stays mapped with
its bytes unchanged — the second close of the same handle still finds the
stale tag, passes the validity-tag check, and returns TRUE again, re-freeing
the owned path, pattern and stream of an allocation that is no longer live,
instead of being rejected with FALSE as the claim requires. -/
theorem findClose_double_close_not_rejected :
    (FindCloseStale staleInit (HandleV.id 0)).1 = true ∧
      (FindCloseStale staleInit (HandleV.id 0)).2.live 0 = false ∧
      (FindCloseStale (FindCloseStale staleInit (HandleV.id 0)).2
        (HandleV.id 0)).1 = true := by
  refine ⟨rfl, rfl, rfl⟩

end WinprFile
